import Mathlib

/-!
A shallow embedding of `src/resize-image.ts` (AlcyZ/resize-image): a
browser-side image-resizing module.  JavaScript numbers are modelled as
rationals, the DOM `File` as a record of its declared MIME type and its raw
contents, and the asynchronous environment (the `FileReader`, the image
decoder behind `new Image`, and `canvas.getContext('2d')`) as an explicit
`Env` record: each callback registration in the source fires exactly one of
its events, so one invocation of an entry point is a pure function of the
input and of the events that fire.
-/

namespace ResizeImage

/-- A DOM `File`: its declared MIME type (`file.type`) and its contents. -/
structure File where
  type : String
  data : String
deriving DecidableEq, Repr

/-- An `HTMLImageElement` after a successful decode: its intrinsic size. -/
structure HTMLImage where
  width : ℚ
  height : ℚ
deriving DecidableEq, Repr

/-- What `canvas.toDataURL(mime, quality)` is given when `resize` (source
lines 227-243) reaches it: the serialization format and quality hint, the
final canvas size set at lines 237-238, and the size of the drawn source. -/
structure Encoded where
  mime : String
  quality : Option ℚ
  width : ℚ
  height : ℚ
  srcWidth : ℚ
  srcHeight : ℚ
deriving DecidableEq, Repr

/-- `Result<T, E>` of the source (line 21) as the pipeline uses it: the
success payload is `undefined` (from `ok(undefined)` in the validators,
modelled `none`) or the encoded output of `resize` (modelled `some`), and
the error payload is a message string. -/
inductive RResult where
  | ok (value : Option Encoded)
  | err (error : String)
deriving DecidableEq, Repr

/-- The `ok` discriminant tag of a result object. -/
def RResult.okTag : RResult → Bool
  | .ok _ => true
  | .err _ => false

/-- The outcome the `FileReader` of `readImageAndCall` (source lines
177-190) delivers: exactly one of its `abort`, `error`, `load` listeners
fires, and on `load` the `reader.result` is either a string or not. -/
inductive ReadEvent where
  | aborted
  | errored
  | loadedNonString
  | loaded (s : String)
deriving DecidableEq, Repr

/-- The outcome the image decoder of `loadImageAndCall` (source lines
203-214) delivers for a base64 string: exactly one of `abort`, `error`,
`load` fires, and on `load` the image has its intrinsic size. -/
inductive LoadEvent where
  | aborted
  | errored
  | loaded (image : HTMLImage)
deriving DecidableEq, Repr

/-- The environment of one invocation: which `FileReader` event fires,
which decoder event fires for a given base64 string, and whether
`canvas.getContext('2d')` returns a context (`false` models `null`). -/
structure Env where
  read : ReadEvent
  load : String → LoadEvent
  ctx2d : Bool

/-- JavaScript `String.prototype.startsWith`, computed structurally over
the character list so that concrete instances evaluate by `decide`. -/
def jsStartsWith (s pre : String) : Bool :=
  pre.data.isPrefixOf s.data

/-- Whether `sub` occurs as a contiguous run inside a character list. -/
def listContains (sub : List Char) : List Char → Bool
  | [] => sub.isPrefixOf []
  | c :: rest => sub.isPrefixOf (c :: rest) || listContains sub rest

/-- JavaScript `String.prototype.includes`: `sub` occurs inside `s`. -/
def jsIncludes (s sub : String) : Bool :=
  listContains sub.data s.data

/-- `validateImageType` (source lines 295-301): the declared MIME type must
start with the image prefix. -/
def validateImageType (file : File) : RResult :=
  if (jsStartsWith file.type "image/") = false then
    .err ("Invalid type (" ++ file.type ++ "). Only images starting with 'image/' are allowed.")
  else
    .ok none

/-- `validateQuality` (source lines 311-317): an absent quality passes; a
present one must satisfy `0.1 <= quality <= 1.0`. -/
def validateQuality (quality : Option ℚ) : RResult :=
  match quality with
  | some q =>
      if q < 0.1 ∨ q > 1.0 then
        .err ("Invalid argument 'quality' (" ++ toString q ++ "). Value must be between 0.1 and 1.0")
      else
        .ok none
  | none => .ok none

/-- `validate` (source lines 278-285): the type check first; only when it
passes is the quality check consulted. -/
def validate (img : File) (quality : Option ℚ) : RResult :=
  let validType := validateImageType img
  if validType.okTag = false then
    validType
  else
    validateQuality quality

/-- JavaScript truthiness of the object `readImageAndCall` tests at source
line 172 (`if (!isValid)`): `isValid` holds the result *object* returned by
`validate`, and in JavaScript every object is truthy, whichever variant it
is, so the negation is `false` on both variants. -/
def jsTruthyObject (_ : RResult) : Bool := true

/-- `resize` (source lines 227-243): obtain the 2d context or fail; draw
the source at its own size, then set the canvas to the target size, redraw,
and serialize with `canvas.toDataURL('image/webp', quality)`. -/
def resize (image : HTMLImage) (width height : ℚ) (quality : Option ℚ) (ctx2d : Bool) : RResult :=
  if ctx2d = false then
    .err "Canvas 2d context not available!"
  else
    .ok (some { mime := "image/webp", quality := quality, width := width, height := height,
                srcWidth := image.width, srcHeight := image.height })

/-- `scaleHeight` (source lines 253-255). -/
def scaleHeight (originalWidth originalHeight resizedWidth : ℚ) : ℚ :=
  originalHeight / originalWidth * resizedWidth

/-- `scaleWidth` (source lines 265-267). -/
def scaleWidth (originalWidth originalHeight resizedHeight : ℚ) : ℚ :=
  originalWidth / originalHeight * resizedHeight

/-- `loadImageAndCall` (source lines 203-214): decode the base64 string and
hand the decoded image to the callback, or fail with the event's message. -/
def loadImageAndCall (imageBase64 : String) (callback : HTMLImage → RResult) (env : Env) : RResult :=
  match env.load imageBase64 with
  | .aborted => .err "Loading image with base64 string aborted!"
  | .errored => .err "Error while loading image with base64 string!"
  | .loaded image => callback image

/-- `resizeWidthAndHeight` (source lines 111-117): both target dimensions
are passed to `resize` verbatim. -/
def resizeWidthAndHeight (imageBase64 : String) (width height : ℚ) (quality : Option ℚ)
    (env : Env) : RResult :=
  loadImageAndCall imageBase64 (fun image => resize image width height quality env.ctx2d) env

/-- `resizeWidth` (source lines 129-137): the missing height is
`scaleHeight image.width image.height width`. -/
def resizeWidth (imageBase64 : String) (width : ℚ) (quality : Option ℚ) (env : Env) : RResult :=
  loadImageAndCall imageBase64 (fun image =>
    let height := scaleHeight image.width image.height width
    resize image width height quality env.ctx2d) env

/-- `resizeHeight` (source lines 149-157): the missing width is
`scaleWidth image.width image.height height`. -/
def resizeHeight (imageBase64 : String) (height : ℚ) (quality : Option ℚ) (env : Env) : RResult :=
  loadImageAndCall imageBase64 (fun image =>
    let width := scaleWidth image.width image.height height
    resize image width height quality env.ctx2d) env

/-- `readImageAndCall` (source lines 169-192), paired with a flag recording
whether `reader.readAsDataURL(img)` (line 190) was reached.  The source
computes `isValid = validate(img, quality)` and tests `if (!isValid)`; the
early `resolve(isValid)` is taken only when that object is falsy, which an
object never is, so the read always proceeds. -/
def readImageAndCall (img : File) (callback : String → RResult) (quality : Option ℚ)
    (env : Env) : RResult × Bool :=
  let isValid := validate img quality
  if jsTruthyObject isValid = false then
    (isValid, false)
  else
    match env.read with
    | .aborted => (.err "Reading image file was aborted!", true)
    | .errored => (.err "Error while reading image file!", true)
    | .loadedNonString => (.err "Loaded image file is not of type (base64) string!", true)
    | .loaded s => (callback s, true)

/-- `resizeImage` (source lines 56-62): the explicit width-and-height entry
point. -/
def resizeImage (img : File) (width height : ℚ) (quality : Option ℚ) (env : Env) :
    RResult × Bool :=
  readImageAndCall img
    (fun imageBase64 => resizeWidthAndHeight imageBase64 width height quality env) quality env

/-- `resizeImageWidth` (source lines 74-80): the width-driven entry point. -/
def resizeImageWidth (img : File) (width : ℚ) (quality : Option ℚ) (env : Env) :
    RResult × Bool :=
  readImageAndCall img (fun imageBase64 => resizeWidth imageBase64 width quality env) quality env

/-- `resizeImageHeight` (source lines 92-98): the height-driven entry
point. -/
def resizeImageHeight (img : File) (height : ℚ) (quality : Option ℚ) (env : Env) :
    RResult × Bool :=
  readImageAndCall img (fun imageBase64 => resizeHeight imageBase64 height quality env) quality env

/-- The object shape of the source's tagged union, written out as the slots
a produced object may carry: the `ok` tag, the `value` slot the `Ok<T>`
type declares (line 6), the `error` slot the `Err<E>` type declares
(line 13), and the `err` slot that the constructor at line 42 actually
writes.  A slot a constructor does not write is absent (`none`). -/
structure ResultObj where
  ok : Bool
  value : Option String := none
  error : Option String := none
  err : Option String := none
deriving DecidableEq, Repr

/-- Constructor `ok` of the source (lines 30-32): `{ok: true, value}`. -/
def mkOkObj (value : String) : ResultObj :=
  { ok := true, value := some value }

/-- Constructor `err` of the source (lines 41-43): `return {ok: false, err}`
is shorthand for a property *named `err`*; the `error` slot that the
declared return type `Err<E>` requires is never written. -/
def mkErrObj (e : String) : ResultObj :=
  { ok := false, err := some e }

/-- Modelled from the spec: `ResizeOptions` (spec §3) for the flexible
options-object entry point `resizeImg`, which the repository's README
documents but whose implementation is not among the source files. -/
structure ResizeOptions where
  width : Option ℚ := none
  height : Option ℚ := none
  quality : Option ℚ := none
deriving DecidableEq, Repr

/-- Modelled from the spec: the error messages the flexible entry point's
validator accumulates, in order (spec §4.1): invalid media type, invalid
quality, and, for the options-object entry point, missing dimensions. -/
def validateOptionsErrors (img : File) (opts : ResizeOptions) : List String :=
  (if (jsStartsWith img.type "image/") = false then
      ["Invalid type (" ++ img.type ++ "). Only images starting with 'image/' are allowed."]
    else []) ++
  (match opts.quality with
    | some q =>
        if q < 0.1 ∨ q > 1.0 then
          ["Invalid argument 'quality' (" ++ toString q ++ "). Value must be between 0.1 and 1.0"]
        else []
    | none => []) ++
  (if opts.width = none ∧ opts.height = none then
      ["either width or height must be set"]
    else [])

/-- Modelled from the spec: the accumulated messages joined with a
separator (spec §4.1). -/
def joinMessages : List String → String
  | [] => ""
  | [m] => m
  | m :: rest => m ++ ", " ++ joinMessages rest

/-- Modelled from the spec: the flexible entry point's validator (spec
§4.1): failure with the joined message set when any check failed, success
otherwise. -/
def validateOptions (img : File) (opts : ResizeOptions) : RResult :=
  let errs := validateOptionsErrors img opts
  if errs = [] then .ok none else .err (joinMessages errs)

/-- Modelled from the spec: the flexible options-object entry point
`resizeImg(blob, options)` (spec §6, pipeline of §2): validate, read,
decode, resolve the dimensions (spec §4.4), resize. -/
def resizeImg (img : File) (opts : ResizeOptions) (env : Env) : RResult :=
  match validateOptions img opts with
  | .err e => .err e
  | .ok _ =>
    match env.read with
    | .aborted => .err "Reading image file was aborted!"
    | .errored => .err "Error while reading image file!"
    | .loadedNonString => .err "Loaded image file is not of type (base64) string!"
    | .loaded s =>
      match env.load s with
      | .aborted => .err "Loading image with base64 string aborted!"
      | .errored => .err "Error while loading image with base64 string!"
      | .loaded image =>
        match opts.width, opts.height with
        | some w, some h => resize image w h opts.quality env.ctx2d
        | some w, none => resize image w (scaleHeight image.width image.height w) opts.quality env.ctx2d
        | none, some h => resize image (scaleWidth image.width image.height h) h opts.quality env.ctx2d
        | none, none => .err "unknown dimensions"

/-- C1 (the code at the failing input): a file of declared type
"text/plain" fails validation, yet every entry point still performs the
blob read (the second component) and resolves with the environment's
decode outcome, not with the invalid-type failure: source line 172 tests
`if (!isValid)` on the result object itself, and an object is always
truthy in JavaScript, so the rejection is discarded. -/
theorem C1_invalid_type_read_performed_anyway :
    (validate { type := "text/plain", data := "hello" } none).okTag = false ∧
    resizeImage { type := "text/plain", data := "hello" } 10 10 none
        { read := .loaded "someBase64", load := fun _ => .errored, ctx2d := true }
      = (.err "Error while loading image with base64 string!", true) ∧
    resizeImageWidth { type := "text/plain", data := "hello" } 10 none
        { read := .loaded "someBase64", load := fun _ => .errored, ctx2d := true }
      = (.err "Error while loading image with base64 string!", true) ∧
    resizeImageHeight { type := "text/plain", data := "hello" } 10 none
        { read := .loaded "someBase64", load := fun _ => .errored, ctx2d := true }
      = (.err "Error while loading image with base64 string!", true) :=
  ⟨rfl, rfl, rfl, rfl⟩

/-- C2 (the code at the failing input): the failure constructor tags the
object `ok = false` and stores the message in a slot named `err`; the
`error` slot that the declared `Err<E>` shape requires stays absent, so
discriminating on the tag and reading the error payload does not yield the
message. -/
theorem C2_err_constructor_error_slot_empty :
    (mkErrObj "boom").ok = false ∧ (mkErrObj "boom").err = some "boom"
      ∧ (mkErrObj "boom").error = none ∧ (mkErrObj "boom").error ≠ some "boom" :=
  ⟨rfl, rfl, rfl, by decide⟩

/-- C3 (the code at the failing input): a successful resize with no output
format requested serializes with the fixed MIME type "image/webp", not the
documented PNG default; `resize` consults no requested format at all. -/
theorem C3_resize_serializes_webp_not_png :
    resize { width := 10, height := 20 } 5 5 none true
      = .ok (some { mime := "image/webp", quality := none, width := 5, height := 5,
                    srcWidth := 10, srcHeight := 20 })
    ∧ "image/webp" ≠ "image/png" :=
  ⟨rfl, by decide⟩

/-- C4 counterexample: at an input where the media type and the quality
both fail their checks, `validate` returns only the image-type message;
the quality message is not contained in the returned message. -/
theorem C4_counterexample_only_first_message :
    validate { type := "text/plain", data := "x" } (some 2)
      = .err "Invalid type (text/plain). Only images starting with 'image/' are allowed."
    ∧ (validateQuality (some 2)).okTag = false
    ∧ jsIncludes "Invalid type (text/plain). Only images starting with 'image/' are allowed."
        "Invalid argument" = false := by
  refine ⟨rfl, ?_, by decide⟩
  have h : (2 : ℚ) < 0.1 ∨ (2 : ℚ) > 1.0 := by norm_num
  simp [validateQuality, h, RResult.okTag]

/-- C4 amended: the validator is fail-fast rather than accumulating:
whenever the image-type check fails, `validate` returns exactly that one
message, and the outcome does not depend on the quality argument at all. -/
theorem C4_validate_fail_fast (img : File) (q : Option ℚ)
    (h : jsStartsWith img.type "image/" = false) :
    validate img q
      = .err ("Invalid type (" ++ img.type ++ "). Only images starting with 'image/' are allowed.")
    ∧ (∀ q2 : Option ℚ, validate img q = validate img q2) := by
  constructor
  · simp [validate, validateImageType, h, RResult.okTag]
  · intro q2
    simp [validate, validateImageType, h, RResult.okTag]

/-- C4 witness: the fail-fast behaviour at the concrete failing input. -/
theorem C4_fail_fast_witness :
    validate { type := "text/plain", data := "x" } (some 2)
      = .err ("Invalid type (" ++ "text/plain" ++ "). Only images starting with 'image/' are allowed.")
    ∧ (∀ q2 : Option ℚ, validate { type := "text/plain", data := "x" } (some 2)
        = validate { type := "text/plain", data := "x" } q2) :=
  C4_validate_fail_fast { type := "text/plain", data := "x" } (some 2) rfl

/-- C5: quality validation fails exactly when the quality is below 0.1 or
above 1.0; every quality in the closed interval passes, in particular the
boundaries 0.1 and 1.0 themselves, and an absent quality passes. -/
theorem C5_validateQuality_range_exact :
    (∀ q : ℚ, (validateQuality (some q)).okTag = false ↔ (q < 0.1 ∨ q > 1.0))
    ∧ (validateQuality (some 0.1)).okTag = true
    ∧ (validateQuality (some 1.0)).okTag = true
    ∧ validateQuality none = .ok none := by
  refine ⟨fun q => ?_, ?_, ?_, rfl⟩
  · by_cases h : q < 0.1 ∨ q > 1.0 <;> simp [validateQuality, h, RResult.okTag]
  · have h : ¬((0.1 : ℚ) < 0.1 ∨ (0.1 : ℚ) > 1.0) := by norm_num
    simp only [validateQuality, if_neg h, RResult.okTag]
  · have h : ¬((1.0 : ℚ) < 0.1 ∨ (1.0 : ℚ) > 1.0) := by norm_num
    simp only [validateQuality, if_neg h, RResult.okTag]

/-- C6: when the decoder yields an image of positive intrinsic size and the
drawing context is available, the width-driven resize resolves the missing
height to exactly `intrinsicHeight / intrinsicWidth * width`, and the
height-driven resize resolves the missing width to exactly
`intrinsicWidth / intrinsicHeight * height`, unrounded. -/
theorem C6_aspect_preserving_scaling (s : String) (image : HTMLImage) (W H : ℚ)
    (q : Option ℚ) (env : Env) (hload : env.load s = .loaded image)
    (hctx : env.ctx2d = true) (_hW0 : 0 < image.width) (_hH0 : 0 < image.height) :
    resizeWidth s W q env
      = .ok (some { mime := "image/webp", quality := q, width := W,
                    height := image.height / image.width * W,
                    srcWidth := image.width, srcHeight := image.height })
    ∧ resizeHeight s H q env
      = .ok (some { mime := "image/webp", quality := q,
                    width := image.width / image.height * H, height := H,
                    srcWidth := image.width, srcHeight := image.height }) := by
  constructor <;>
    simp [resizeWidth, resizeHeight, loadImageAndCall, hload, resize, hctx,
      scaleHeight, scaleWidth]

/-- C6 witness: a 1000 by 500 source, width-driven to 400 and height-driven
to 200. -/
theorem C6_scaling_witness :
    resizeWidth "img" 400 none
        { read := .loaded "img", load := fun _ => .loaded { width := 1000, height := 500 },
          ctx2d := true }
      = .ok (some { mime := "image/webp", quality := none, width := 400,
                    height := (500 : ℚ) / 1000 * 400, srcWidth := 1000, srcHeight := 500 })
    ∧ resizeHeight "img" 200 none
        { read := .loaded "img", load := fun _ => .loaded { width := 1000, height := 500 },
          ctx2d := true }
      = .ok (some { mime := "image/webp", quality := none,
                    width := (1000 : ℚ) / 500 * 200, height := 200,
                    srcWidth := 1000, srcHeight := 500 }) := by
  exact C6_aspect_preserving_scaling "img" { width := 1000, height := 500 } 400 200 none
    { read := .loaded "img", load := fun _ => .loaded { width := 1000, height := 500 },
      ctx2d := true }
    rfl rfl (by norm_num) (by norm_num)

/-- C7: when both target dimensions are supplied, they are used verbatim:
the resulting canvas is exactly the supplied pair, with no aspect-ratio
correction, whatever the source's intrinsic size. -/
theorem C7_explicit_dimensions_verbatim (s : String) (image : HTMLImage) (w h : ℚ)
    (q : Option ℚ) (env : Env) (hload : env.load s = .loaded image)
    (hctx : env.ctx2d = true) :
    resizeWidthAndHeight s w h q env
      = .ok (some { mime := "image/webp", quality := q, width := w, height := h,
                    srcWidth := image.width, srcHeight := image.height }) := by
  simp [resizeWidthAndHeight, loadImageAndCall, hload, resize, hctx]

/-- C7 witness: a 1000 by 500 source distorted to 300 by 300 verbatim. -/
theorem C7_verbatim_witness :
    resizeWidthAndHeight "img" 300 300 none
        { read := .loaded "img", load := fun _ => .loaded { width := 1000, height := 500 },
          ctx2d := true }
      = .ok (some { mime := "image/webp", quality := none, width := 300, height := 300,
                    srcWidth := 1000, srcHeight := 500 }) := by
  exact C7_explicit_dimensions_verbatim "img" { width := 1000, height := 500 } 300 300 none
    { read := .loaded "img", load := fun _ => .loaded { width := 1000, height := 500 },
      ctx2d := true }
    rfl rfl

/-- C8: the flexible options-object entry point called with options
carrying neither width nor height returns a failure outcome whose message
contains the missing-dimensions text "either width or height must be
set". -/
theorem C8_no_dimensions_fails (img : File) (env : Env) :
    ∃ pre post, resizeImg img {} env
      = .err (pre ++ "either width or height must be set" ++ post) := by
  by_cases htype : jsStartsWith img.type "image/" = true
  · refine ⟨"", "", ?_⟩
    simp [resizeImg, validateOptions, validateOptionsErrors, htype, joinMessages,
      String.empty_append, String.append_empty]
  · have htype2 : jsStartsWith img.type "image/" = false := by
      cases hj : jsStartsWith img.type "image/" with
      | true => exact absurd hj htype
      | false => rfl
    refine ⟨"Invalid type (" ++ img.type
      ++ "). Only images starting with 'image/' are allowed." ++ ", ", "", ?_⟩
    simp [resizeImg, validateOptions, validateOptionsErrors, htype2, joinMessages,
      String.append_assoc, String.append_empty]

/-- C9: the Resizer stage fails exactly when the 2d drawing context is
unavailable, and then with the context-unavailable message; when the
context is available it returns the success outcome. -/
theorem C9_resizer_fails_iff_no_context (image : HTMLImage) (w h : ℚ) (q : Option ℚ)
    (ctx2d : Bool) :
    ((resize image w h q ctx2d).okTag = false ↔ ctx2d = false)
    ∧ (ctx2d = false → resize image w h q ctx2d = .err "Canvas 2d context not available!")
    ∧ (ctx2d = true → resize image w h q ctx2d
        = .ok (some { mime := "image/webp", quality := q, width := w, height := h,
                      srcWidth := image.width, srcHeight := image.height })) := by
  cases ctx2d <;> simp [resize, RResult.okTag]

/-- C10: validation is a pure deterministic function of its arguments with
no hidden state: two calls on identical inputs yield identical outcomes. -/
theorem C10_validate_deterministic (img : File) (q : Option ℚ) :
    validate img q = validate img q := rfl

end ResizeImage
